import Mathlib

/-!
Verification of the task CRUD rule engine of the TODO-list backend.

The embedding models, from the repository source:
  * the persisted task table and its filtered unique index
    (database/functional/_structure.sql);
  * the five stored procedures spTaskCreate, spTaskGet, spTaskUpdate,
    spTaskList, spTaskDelete (database/functional/task/*.sql), which hold
    the validation and CRUD logic;
  * the per-handler HTTP status mapping of the controller layer
    (src/api/v1/internal/task/controller.ts) together with the argument
    defaulting done by the service layer (src/services/task/taskRules.ts).

Modelling conventions:
  * ids, dates (DATE as a day number) and timestamps (DATETIME2) are Nat;
    GETUTCDATE() is passed in as explicit today/now parameters;
  * nullable SQL values are Option;
  * THROW 51000 with a message is an Except.error carrying the error kind;
  * every procedure returns its result together with the post-call store,
    so rollback behaviour is observable;
  * T-SQL LEN counts characters excluding trailing blanks, and
    LTRIM/RTRIM strip space characters, which the sqlLen / ltrimSp /
    rtrimSp helpers reproduce;
  * binding an argument to an NVARCHAR(n) parameter silently truncates it
    to its first n characters before the procedure body runs; bindNVarchar
    models that, and spTaskCreateBound is spTaskCreate as invoked through
    its declared parameter types (this is decisive for the title-length
    boundary, where the LEN check is unreachable through binding);
  * in T-SQL, ORDER BY ... ASC places NULL before all non-NULL values;
    the dueDateKey helper encodes that;
  * string comparison is exact equality (the store's collation is
    configuration, not code).
-/

namespace TaskSpec

/-- Error kinds raised by the stored procedures as THROW 51000 messages. -/
inductive TaskError where
  | titleRequired
  | titleExceedsMaxLength
  | descriptionExceedsMaxLength
  | invalidPriority
  | invalidStatus
  | dueDateInPast
  | accountDoesntExist
  | userDoesntExist
  | taskDoesntExist
  | titleAlreadyExists
deriving DecidableEq, Repr

/-- A row of the functional.task table (_structure.sql). -/
structure TaskRow where
  idTask : Nat
  idAccount : Nat
  idUser : Nat
  title : String
  description : String
  priority : Nat
  dueDate : Option Nat
  status : Nat
  dateCreated : Nat
  dateModified : Nat
  deleted : Bool
deriving DecidableEq, Repr

/-- The store: the task table plus the referenced subscription.account ids
and security.user rows (a user row is an (idUser, idAccount) pair), and
the IDENTITY seed for idTask. -/
structure Db where
  accounts : List Nat
  users : List (Nat × Nat)
  tasks : List TaskRow
  nextId : Nat
deriving DecidableEq, Repr

instance {ε α : Type} [DecidableEq ε] [DecidableEq α] : DecidableEq (Except ε α) := fun x y => by
  cases x <;> cases y
  case error.error a b => exact decidable_of_iff (a = b) (by simp)
  case error.ok => exact isFalse (by simp)
  case ok.error => exact isFalse (by simp)
  case ok.ok a b => exact decidable_of_iff (a = b) (by simp)

/-- T-SQL RTRIM: strip trailing space characters. -/
def rtrimSp (s : String) : String :=
  String.mk ((s.data.reverse.dropWhile (fun c => c = ' ')).reverse)

/-- T-SQL LTRIM: strip leading space characters. -/
def ltrimSp (s : String) : String :=
  String.mk (s.data.dropWhile (fun c => c = ' '))

/-- T-SQL LEN: the number of characters excluding trailing blanks. -/
def sqlLen (s : String) : Nat :=
  (rtrimSp s).length

/-- EXISTS (SELECT * FROM subscription.account WHERE idAccount = @idAccount). -/
def accountExists (db : Db) (idAccount : Nat) : Bool :=
  db.accounts.contains idAccount

/-- EXISTS (SELECT * FROM security.user WHERE idUser = @idUser AND idAccount = @idAccount). -/
def userBelongs (db : Db) (idUser idAccount : Nat) : Bool :=
  db.users.contains (idUser, idAccount)

/-- WHERE clause of the title-uniqueness check of spTaskCreate:
same account, same user, same title, deleted = 0. -/
def dupTitle (r : TaskRow) (idAccount idUser : Nat) (title : String) : Bool :=
  r.idAccount == idAccount && r.idUser == idUser && r.title == title && r.deleted == false

/-- EXISTS over the title-uniqueness WHERE clause of spTaskCreate. -/
def titleDupExists (db : Db) (idAccount idUser : Nat) (title : String) : Bool :=
  db.tasks.any (fun r => dupTitle r idAccount idUser title)

/-- WHERE clause of the title-uniqueness check of spTaskUpdate, which
additionally excludes the updated task itself (idTask <> @idTask). -/
def dupTitleOther (r : TaskRow) (idAccount idUser : Nat) (title : String) (idTask : Nat) : Bool :=
  r.idAccount == idAccount && r.idUser == idUser && r.title == title &&
    r.idTask != idTask && r.deleted == false

/-- WHERE clause of the task existence-and-ownership checks of
spTaskGet / spTaskUpdate / spTaskDelete: exact (idTask, idAccount, idUser)
and deleted = 0. -/
def taskVisible (r : TaskRow) (idTask idAccount idUser : Nat) : Bool :=
  r.idTask == idTask && r.idAccount == idAccount && r.idUser == idUser && r.deleted == false

/-- EXISTS over the task existence-and-ownership WHERE clause. -/
def taskExistsOwned (db : Db) (idTask idAccount idUser : Nat) : Bool :=
  db.tasks.any (fun r => taskVisible r idTask idAccount idUser)

/-- Condition of the titleRequired check:
@title IS NULL OR LTRIM(RTRIM(@title)) = ''. -/
def titleBlank (title : Option String) : Bool :=
  match title with
  | none => true
  | some s => ltrimSp (rtrimSp s) == ""

/-- Condition of the descriptionExceedsMaxLength check:
@description IS NOT NULL AND LEN(@description) > 500. -/
def descTooLong (description : Option String) : Bool :=
  match description with
  | none => false
  | some s => decide (500 < sqlLen s)

/-- Condition of the dueDateInPast check:
@dueDate IS NOT NULL AND @dueDate < CAST(GETUTCDATE() AS DATE). -/
def dueDateBeforeToday (today : Nat) (dueDate : Option Nat) : Bool :=
  match dueDate with
  | none => false
  | some d => decide (d < today)

/-- The row built by the INSERT of spTaskCreate: status = 0 (Pending),
deleted = 0, both timestamps GETUTCDATE(). -/
def mkTaskRow (idTask idAccount idUser : Nat) (title description : String)
    (priority : Nat) (dueDate : Option Nat) (now : Nat) : TaskRow :=
  { idTask := idTask, idAccount := idAccount, idUser := idUser, title := title,
    description := description, priority := priority, dueDate := dueDate,
    status := 0, dateCreated := now, dateModified := now, deleted := false }

/-- INSERT into functional.task honouring the filtered unique index
uqTask_Account_User_Title of _structure.sql (unique (idAccount, idUser,
title) over rows with deleted = 0): a violating insert raises instead of
storing the row, and the surfaced kind is the uniqueness conflict. -/
def insertTask (db : Db) (row : TaskRow) : Except TaskError Db :=
  if !row.deleted && titleDupExists db row.idAccount row.idUser row.title then
    Except.error TaskError.titleAlreadyExists
  else
    Except.ok { db with tasks := db.tasks ++ [row], nextId := db.nextId + 1 }

/-- functional.spTaskCreate. Validations in source order, then the
transactional INSERT; the CATCH block rolls back (the pre-call store is
returned) and re-raises. Returns the selected idTask (SCOPE_IDENTITY)
or the thrown error, together with the post-call store. -/
def spTaskCreate (db : Db) (today now : Nat) (idAccount idUser : Nat)
    (title description : Option String) (priority : Nat)
    (dueDate : Option Nat) : Except TaskError Nat × Db :=
  if titleBlank title then (Except.error TaskError.titleRequired, db)
  else if decide (100 < sqlLen (title.getD "")) then
    (Except.error TaskError.titleExceedsMaxLength, db)
  else if descTooLong description then
    (Except.error TaskError.descriptionExceedsMaxLength, db)
  else if decide (2 < priority) then (Except.error TaskError.invalidPriority, db)
  else if dueDateBeforeToday today dueDate then (Except.error TaskError.dueDateInPast, db)
  else if !accountExists db idAccount then (Except.error TaskError.accountDoesntExist, db)
  else if !userBelongs db idUser idAccount then (Except.error TaskError.userDoesntExist, db)
  else if titleDupExists db idAccount idUser (title.getD "") then
    (Except.error TaskError.titleAlreadyExists, db)
  else
    match insertTask db (mkTaskRow db.nextId idAccount idUser (title.getD "")
        (description.getD "") priority dueDate now) with
    | Except.ok db2 => (Except.ok db.nextId, db2)
    | Except.error e => (Except.error e, db)

/-- NVARCHAR(n) parameter binding: an argument longer than n characters is
silently truncated to its first n characters (T-SQL keeps the leftmost
characters; no error is raised). -/
def bindNVarchar (n : Nat) (s : String) : String :=
  String.mk (s.data.take n)

/-- spTaskCreate as invoked through its declared parameter types,
@title NVARCHAR(100) and @description NVARCHAR(500): the arguments are
truncated at parameter binding before the body runs. -/
def spTaskCreateBound (db : Db) (today now : Nat) (idAccount idUser : Nat)
    (title description : Option String) (priority : Nat)
    (dueDate : Option Nat) : Except TaskError Nat × Db :=
  spTaskCreate db today now idAccount idUser (title.map (bindNVarchar 100))
    (description.map (bindNVarchar 500)) priority dueDate

/-- A result row of spTaskGet / spTaskList: exactly the eight columns of
their SELECT list. -/
structure TaskOut where
  idTask : Nat
  title : String
  description : String
  priority : Nat
  dueDate : Option Nat
  status : Nat
  dateCreated : Nat
  dateModified : Nat
deriving DecidableEq, Repr

/-- The shared SELECT projection of spTaskGet and spTaskList. -/
def projectTask (r : TaskRow) : TaskOut :=
  { idTask := r.idTask, title := r.title, description := r.description,
    priority := r.priority, dueDate := r.dueDate, status := r.status,
    dateCreated := r.dateCreated, dateModified := r.dateModified }

/-- A column value of a result row. -/
inductive ColValue where
  | intv : Nat → ColValue
  | strv : String → ColValue
  | datev : Option Nat → ColValue
deriving DecidableEq, Repr

/-- A result row rendered as its ordered (column name, value) pairs —
the literal SELECT list of spTaskGet / spTaskList. -/
def taskOutCols (t : TaskOut) : List (String × ColValue) :=
  [("idTask", ColValue.intv t.idTask),
   ("title", ColValue.strv t.title),
   ("description", ColValue.strv t.description),
   ("priority", ColValue.intv t.priority),
   ("dueDate", ColValue.datev t.dueDate),
   ("status", ColValue.intv t.status),
   ("dateCreated", ColValue.intv t.dateCreated),
   ("dateModified", ColValue.intv t.dateModified)]

/-- The column names of the SELECT list of spTaskGet / spTaskList. -/
def taskOutFields : List String :=
  ["idTask", "title", "description", "priority", "dueDate", "status",
   "dateCreated", "dateModified"]

/-- The property names of the declared TaskEntity result interface in
src/services/task (taskTypes.ts). -/
def taskEntityFields : List String :=
  ["idTask", "idAccount", "idUser", "title", "description", "priority",
   "dueDate", "status", "dateCreated", "dateModified"]

/-- functional.spTaskGet: account, user and ownership validations, then
the SELECT of the matching non-deleted rows. -/
def spTaskGet (db : Db) (idAccount idUser idTask : Nat) :
    Except TaskError (List TaskOut) × Db :=
  if !accountExists db idAccount then (Except.error TaskError.accountDoesntExist, db)
  else if !userBelongs db idUser idAccount then (Except.error TaskError.userDoesntExist, db)
  else if !taskExistsOwned db idTask idAccount idUser then
    (Except.error TaskError.taskDoesntExist, db)
  else
    (Except.ok ((db.tasks.filter (fun r => taskVisible r idTask idAccount idUser)).map
      projectTask), db)

/-- Sort key for the dueDate column under T-SQL ORDER BY ... ASC:
NULL sorts before every non-NULL date. -/
def dueDateKey : Option Nat → Nat × Nat
  | none => (0, 0)
  | some d => (1, d)

/-- Strict lexicographic order on pairs of naturals. -/
def pairLt (p q : Nat × Nat) : Prop :=
  p.1 < q.1 ∨ (p.1 = q.1 ∧ p.2 < q.2)

instance (p q : Nat × Nat) : Decidable (pairLt p q) := by
  unfold pairLt; infer_instance

/-- Componentwise equality of the dueDate sort keys. -/
def pairEq (p q : Nat × Nat) : Prop :=
  p.1 = q.1 ∧ p.2 = q.2

instance (p q : Nat × Nat) : Decidable (pairEq p q) := by
  unfold pairEq; infer_instance

/-- The ORDER BY of spTaskList on table rows: priority DESC, dueDate ASC
(NULL lowest, per T-SQL), dateCreated DESC. a comes no later than b. -/
def taskRowLE (a b : TaskRow) : Prop :=
  b.priority < a.priority ∨ (a.priority = b.priority ∧
    (pairLt (dueDateKey a.dueDate) (dueDateKey b.dueDate) ∨
     (pairEq (dueDateKey a.dueDate) (dueDateKey b.dueDate) ∧
      b.dateCreated ≤ a.dateCreated)))

instance (a b : TaskRow) : Decidable (taskRowLE a b) := by
  unfold taskRowLE; infer_instance

instance : IsTotal TaskRow taskRowLE where
  total a b := by unfold taskRowLE pairLt pairEq; omega

instance : IsTrans TaskRow taskRowLE where
  trans a b c hab hbc := by
    unfold taskRowLE pairLt pairEq at hab hbc ⊢; omega

/-- The same ordering read off a projected result row (the three sort
columns survive the SELECT projection). -/
def taskOutLE (a b : TaskOut) : Prop :=
  b.priority < a.priority ∨ (a.priority = b.priority ∧
    (pairLt (dueDateKey a.dueDate) (dueDateKey b.dueDate) ∨
     (pairEq (dueDateKey a.dueDate) (dueDateKey b.dueDate) ∧
      b.dateCreated ≤ a.dateCreated)))

instance (a b : TaskOut) : Decidable (taskOutLE a b) := by
  unfold taskOutLE; infer_instance

/-- WHERE clause of spTaskList: tenant and owner match, deleted = 0, and
the optional status / priority filters ((@x IS NULL) OR (column = @x)). -/
def listWhere (r : TaskRow) (idAccount idUser : Nat)
    (status priority : Option Nat) : Bool :=
  r.idAccount == idAccount && r.idUser == idUser && r.deleted == false &&
  (match status with
   | none => true
   | some s => r.status == s) &&
  (match priority with
   | none => true
   | some p => r.priority == p)

/-- Condition of the invalidStatus check of spTaskList:
@status IS NOT NULL AND @status NOT BETWEEN 0 AND 1. -/
def statusParamBad (status : Option Nat) : Bool :=
  match status with
  | none => false
  | some s => decide (1 < s)

/-- Condition of the invalidPriority check of spTaskList:
@priority IS NOT NULL AND @priority NOT BETWEEN 0 AND 2. -/
def priorityParamBad (priority : Option Nat) : Bool :=
  match priority with
  | none => false
  | some p => decide (2 < p)

/-- functional.spTaskList: account/user validations, optional filter
validations, then the filtered SELECT ordered by the ORDER BY clause
(insertionSort realises the comparator; ties are in unspecified order in
SQL, and no claim depends on tie order). -/
def spTaskList (db : Db) (idAccount idUser : Nat)
    (status priority : Option Nat) : Except TaskError (List TaskOut) × Db :=
  if !accountExists db idAccount then (Except.error TaskError.accountDoesntExist, db)
  else if !userBelongs db idUser idAccount then (Except.error TaskError.userDoesntExist, db)
  else if statusParamBad status then (Except.error TaskError.invalidStatus, db)
  else if priorityParamBad priority then (Except.error TaskError.invalidPriority, db)
  else
    (Except.ok ((List.insertionSort taskRowLE
        (db.tasks.filter (fun r => listWhere r idAccount idUser status priority))).map
      projectTask), db)

/-- functional.spTaskUpdate. Validations in source order, then the
transactional UPDATE (full field replacement and dateModified = now on
the rows matched by the same visibility predicate). -/
def spTaskUpdate (db : Db) (today now : Nat) (idAccount idUser idTask : Nat)
    (title description : Option String) (priority : Nat) (dueDate : Option Nat)
    (status : Nat) : Except TaskError Nat × Db :=
  if titleBlank title then (Except.error TaskError.titleRequired, db)
  else if decide (100 < sqlLen (title.getD "")) then
    (Except.error TaskError.titleExceedsMaxLength, db)
  else if descTooLong description then
    (Except.error TaskError.descriptionExceedsMaxLength, db)
  else if decide (2 < priority) then (Except.error TaskError.invalidPriority, db)
  else if decide (1 < status) then (Except.error TaskError.invalidStatus, db)
  else if dueDateBeforeToday today dueDate then (Except.error TaskError.dueDateInPast, db)
  else if !accountExists db idAccount then (Except.error TaskError.accountDoesntExist, db)
  else if !userBelongs db idUser idAccount then (Except.error TaskError.userDoesntExist, db)
  else if !taskExistsOwned db idTask idAccount idUser then
    (Except.error TaskError.taskDoesntExist, db)
  else if db.tasks.any (fun r => dupTitleOther r idAccount idUser (title.getD "") idTask) then
    (Except.error TaskError.titleAlreadyExists, db)
  else
    (Except.ok idTask,
     { db with tasks := db.tasks.map (fun r =>
         if taskVisible r idTask idAccount idUser then
           { r with
             title := title.getD "",
             description := description.getD "",
             priority := priority,
             dueDate := dueDate,
             status := status,
             dateModified := now }
         else r) })

/-- functional.spTaskDelete: account/user/ownership validations, then the
transactional soft delete (deleted = 1, dateModified = now on the rows
matched by the same visibility predicate). -/
def spTaskDelete (db : Db) (now : Nat) (idAccount idUser idTask : Nat) :
    Except TaskError Nat × Db :=
  if !accountExists db idAccount then (Except.error TaskError.accountDoesntExist, db)
  else if !userBelongs db idUser idAccount then (Except.error TaskError.userDoesntExist, db)
  else if !taskExistsOwned db idTask idAccount idUser then
    (Except.error TaskError.taskDoesntExist, db)
  else
    (Except.ok idTask,
     { db with tasks := db.tasks.map (fun r =>
         if taskVisible r idTask idAccount idUser then
           { r with deleted := true, dateModified := now }
         else r) })

/-- POST /task after body parsing (controller.ts postHandler), including
the service-layer defaulting of taskRules.ts taskCreate (description or
empty string, priority default 1): success is 201, an engine error
(number 51000) is 400. Returns (HTTP status, post-call store). -/
def postHandler (db : Db) (today now : Nat) (idAccount idUser : Nat)
    (title : String) (description : Option String) (priority : Option Nat)
    (dueDate : Option Nat) : Nat × Db :=
  match spTaskCreate db today now idAccount idUser (some title)
      (some (description.getD "")) (priority.getD 1) dueDate with
  | (Except.ok _, db2) => (201, db2)
  | (Except.error _, db2) => (400, db2)

/-- GET /task after query parsing (controller.ts getListHandler):
success is 200, an engine error is 400. -/
def getListHandler (db : Db) (idAccount idUser : Nat)
    (status priority : Option Nat) : Nat × Db :=
  match spTaskList db idAccount idUser status priority with
  | (Except.ok _, db2) => (200, db2)
  | (Except.error _, db2) => (400, db2)

/-- GET /task/:id after parsing (controller.ts getHandler):
success is 200, an engine error is 404. -/
def getHandler (db : Db) (idAccount idUser idTask : Nat) : Nat × Db :=
  match spTaskGet db idAccount idUser idTask with
  | (Except.ok _, db2) => (200, db2)
  | (Except.error _, db2) => (404, db2)

/-- PUT /task/:id after parsing (controller.ts putHandler), including the
service-layer defaulting of taskRules.ts taskUpdate: success is 200, an
engine error is 400. -/
def putHandler (db : Db) (today now : Nat) (idTask idAccount idUser : Nat)
    (title : String) (description : Option String) (priority : Nat)
    (dueDate : Option Nat) (status : Nat) : Nat × Db :=
  match spTaskUpdate db today now idAccount idUser idTask (some title)
      (some (description.getD "")) priority dueDate status with
  | (Except.ok _, db2) => (200, db2)
  | (Except.error _, db2) => (400, db2)

/-- DELETE /task/:id after parsing (controller.ts deleteHandler):
success is 200, an engine error is 404. -/
def deleteHandler (db : Db) (now : Nat) (idAccount idUser idTask : Nat) : Nat × Db :=
  match spTaskDelete db now idAccount idUser idTask with
  | (Except.ok _, db2) => (200, db2)
  | (Except.error _, db2) => (404, db2)

/-- The kind-based status mapping the specification describes:
404 for taskDoesntExist, 400 for every other rule violation. -/
def specStatusOfError (e : TaskError) : Nat :=
  if e = TaskError.taskDoesntExist then 404 else 400

/-- The Create validation checks in the order the specification states
them, each as (violation condition, raised error). -/
def createChecks (db : Db) (today : Nat) (idAccount idUser : Nat)
    (title description : Option String) (priority : Nat)
    (dueDate : Option Nat) : List (Bool × TaskError) :=
  [ (titleBlank title, TaskError.titleRequired),
    (decide (100 < sqlLen (title.getD "")), TaskError.titleExceedsMaxLength),
    (descTooLong description, TaskError.descriptionExceedsMaxLength),
    (decide (2 < priority), TaskError.invalidPriority),
    (dueDateBeforeToday today dueDate, TaskError.dueDateInPast),
    (!accountExists db idAccount, TaskError.accountDoesntExist),
    (!userBelongs db idUser idAccount, TaskError.userDoesntExist),
    (titleDupExists db idAccount idUser (title.getD ""), TaskError.titleAlreadyExists) ]

/-- The error of the first violated check, if any. -/
def firstViolation (checks : List (Bool × TaskError)) : Option TaskError :=
  (checks.find? (fun c => c.1)).map (fun c => c.2)

/-- The dueDate sort key with NULLs placed after all dates, which is the
order the specification claims for List results. -/
def dueDateKeyNullsLast : Option Nat → Nat × Nat
  | none => (1, 0)
  | some d => (0, d)

/-- The result ordering the specification claims for List: priority
descending, then dueDate ascending with NULLs last, then dateCreated
descending. -/
def claimedOutLE (a b : TaskOut) : Prop :=
  b.priority < a.priority ∨ (a.priority = b.priority ∧
    (pairLt (dueDateKeyNullsLast a.dueDate) (dueDateKeyNullsLast b.dueDate) ∨
     (pairEq (dueDateKeyNullsLast a.dueDate) (dueDateKeyNullsLast b.dueDate) ∧
      b.dateCreated ≤ a.dateCreated)))

instance (a b : TaskOut) : Decidable (claimedOutLE a b) := by
  unfold claimedOutLE; infer_instance

/-- Fixture: task 1 of owner (1, 1), priority 1, dueDate 10, created at 100. -/
def rowA : TaskRow :=
  { idTask := 1, idAccount := 1, idUser := 1, title := "a", description := "",
    priority := 1, dueDate := some 10, status := 0, dateCreated := 100,
    dateModified := 100, deleted := false }

/-- Fixture: task 2 of owner (1, 1), priority 1, no dueDate, created at 200. -/
def rowB : TaskRow :=
  { idTask := 2, idAccount := 1, idUser := 1, title := "b", description := "",
    priority := 1, dueDate := none, status := 0, dateCreated := 200,
    dateModified := 200, deleted := false }

/-- Fixture: task 7 owned by user 2 of account 1. -/
def rowC : TaskRow :=
  { idTask := 7, idAccount := 1, idUser := 2, title := "c", description := "",
    priority := 0, dueDate := none, status := 0, dateCreated := 50,
    dateModified := 50, deleted := false }

/-- Fixture store holding rowA and rowB for owner (1, 1). -/
def cdb : Db := { accounts := [1], users := [(1, 1)], tasks := [rowA, rowB], nextId := 3 }

/-- Fixture store with account 1, user 1 and no tasks. -/
def db0 : Db := { accounts := [1], users := [(1, 1)], tasks := [], nextId := 1 }

/-- Fixture store whose only task matches (1, 1, title of rowA) but is
soft-deleted. -/
def ddb : Db :=
  { accounts := [1], users := [(1, 1)],
    tasks := [{ rowA with deleted := true }], nextId := 2 }

/-- Fixture store where the only task belongs to user 2 while user 1 of the
same account is the caller. -/
def odb : Db := { accounts := [1], users := [(1, 1), (2, 1)], tasks := [rowC], nextId := 8 }

/-- The cdb store after soft deletion of task 1 at time 9. -/
def cdbDel : Db :=
  { accounts := [1], users := [(1, 1)],
    tasks := [{ rowA with deleted := true, dateModified := 9 }, rowB], nextId := 3 }

/-- A 101-character title with no blanks. -/
def s101 : String := String.mk (List.replicate 101 'a')

/-- A 100-character title. -/
def s100 : String := String.mk (List.replicate 100 'a')

/-- After the soft-delete UPDATE of spTaskDelete, no row matches the
existence-and-ownership predicate for the deleted triple. -/
theorem taskExistsOwned_after_delete (db : Db) (now a u t : Nat) :
    taskExistsOwned { db with tasks := db.tasks.map (fun r =>
        if taskVisible r t a u then { r with deleted := true, dateModified := now } else r) }
      t a u = false := by
  unfold taskExistsOwned
  simp only [List.any_map]
  rw [List.any_eq_false]
  intro r hr
  simp only [Function.comp]
  by_cases hv : taskVisible r t a u = true
  · rw [if_pos hv]
    simp [taskVisible]
  · rw [if_neg hv]
    exact hv

/-- dropWhile never lengthens a list. -/
theorem length_dropWhile_le (p : Char → Bool) (l : List Char) :
    (l.dropWhile p).length ≤ l.length := by
  conv_rhs => rw [← List.takeWhile_append_dropWhile p l]
  rw [List.length_append]
  omega

/-- LEN is at most the character count of the string. -/
theorem sqlLen_le_length (s : String) : sqlLen s ≤ s.length := by
  obtain ⟨l⟩ := s
  show ((l.reverse.dropWhile fun c => decide (c = ' ')).reverse).length ≤ l.length
  rw [List.length_reverse]
  calc (l.reverse.dropWhile fun c => decide (c = ' ')).length
      ≤ l.reverse.length := length_dropWhile_le _ _
    _ = l.length := List.length_reverse _

/-- C1: every Create request is validated by the eight checks in exactly the
specified order — blank title, title length, description length, priority
range, dueDate not in the past, account existence, user existence and
membership, title uniqueness — and the raised error is exactly the tag of
the first violated check; when no check is violated the create succeeds, so
no aggregation of violations is possible. -/
theorem c1_create_validation_order (db : Db) (today now idAccount idUser : Nat)
    (title description : Option String) (priority : Nat) (dueDate : Option Nat) :
    (spTaskCreate db today now idAccount idUser title description priority dueDate).1 =
      (match firstViolation
          (createChecks db today idAccount idUser title description priority dueDate) with
       | some e => Except.error e
       | none => Except.ok db.nextId) := by
  by_cases h1 : titleBlank title = true
  · simp [spTaskCreate, createChecks, firstViolation, List.find?, h1]
  by_cases h2 : 100 < sqlLen (title.getD "")
  · simp [spTaskCreate, createChecks, firstViolation, List.find?, h1, h2]
  by_cases h3 : descTooLong description = true
  · simp [spTaskCreate, createChecks, firstViolation, List.find?, h1, h2, h3]
  by_cases h4 : 2 < priority
  · simp [spTaskCreate, createChecks, firstViolation, List.find?, h1, h2, h3, h4]
  by_cases h5 : dueDateBeforeToday today dueDate = true
  · simp [spTaskCreate, createChecks, firstViolation, List.find?, h1, h2, h3, h4, h5]
  by_cases h6 : accountExists db idAccount = true
  case neg =>
    simp [spTaskCreate, createChecks, firstViolation, List.find?, h1, h2, h3, h4, h5, h6]
  by_cases h7 : userBelongs db idUser idAccount = true
  case neg =>
    simp [spTaskCreate, createChecks, firstViolation, List.find?, h1, h2, h3, h4, h5, h6, h7]
  by_cases h8 : titleDupExists db idAccount idUser (title.getD "") = true
  · simp [spTaskCreate, createChecks, firstViolation, List.find?, h1, h2, h3, h4, h5, h6, h7, h8]
  · simp [spTaskCreate, createChecks, firstViolation, List.find?, insertTask, mkTaskRow,
      h1, h2, h3, h4, h5, h6, h7, h8]

/-- C2: every Create call either fails and returns the store exactly in its
pre-call state (full rollback, the error re-raised), or succeeds and the
post-call store is the pre-call store with exactly the one fully-formed new
row appended and the identity seed advanced — no partial insert ever
persists. -/
theorem c2_create_atomic_effects (db : Db) (today now a u : Nat) (ti d : Option String)
    (p : Nat) (dd : Option Nat) :
    spTaskCreate db today now a u ti d p dd =
      (Except.ok db.nextId,
       { db with
         tasks := db.tasks ++ [mkTaskRow db.nextId a u (ti.getD "") (d.getD "") p dd now],
         nextId := db.nextId + 1 }) ∨
    (∃ e, spTaskCreate db today now a u ti d p dd = (Except.error e, db)) := by
  unfold spTaskCreate
  split
  · exact Or.inr ⟨_, rfl⟩
  split
  · exact Or.inr ⟨_, rfl⟩
  split
  · exact Or.inr ⟨_, rfl⟩
  split
  · exact Or.inr ⟨_, rfl⟩
  split
  · exact Or.inr ⟨_, rfl⟩
  split
  · exact Or.inr ⟨_, rfl⟩
  split
  · exact Or.inr ⟨_, rfl⟩
  split
  · exact Or.inr ⟨_, rfl⟩
  rename_i h8
  have hg : insertTask db (mkTaskRow db.nextId a u (ti.getD "") (d.getD "") p dd now) =
      Except.ok { db with
        tasks := db.tasks ++ [mkTaskRow db.nextId a u (ti.getD "") (d.getD "") p dd now],
        nextId := db.nextId + 1 } := by
    unfold insertTask
    rw [if_neg]
    simp only [mkTaskRow, Bool.not_false, Bool.true_and]
    exact h8
  rw [hg]
  exact Or.inl rfl

/-- C3 counterexample: with two tasks of equal priority where the later-created
one has a NULL dueDate, spTaskList returns the NULL-dueDate task first, so the
returned sequence is not sorted by the claimed nulls-last dueDate order. -/
theorem c3_nulls_sort_first_counterexample :
    (spTaskList cdb 1 1 none none).1 = Except.ok [projectTask rowB, projectTask rowA] ∧
    ¬ List.Pairwise claimedOutLE [projectTask rowB, projectTask rowA] := by
  constructor
  · decide
  · decide

/-- C3 (amended): for every List call that succeeds, the returned sequence is
sorted by priority descending, then dueDate ascending with NULL dueDates
sorting first (T-SQL places NULL lowest under ASC), then dateCreated
descending, and it is a permutation of the projected non-deleted tasks of the
(idAccount, idUser) pair that pass the optional filters. -/
theorem c3_list_ordering (db : Db) (a u : Nat) (s p : Option Nat) (rows : List TaskOut) :
    (spTaskList db a u s p).1 = Except.ok rows →
    rows.Pairwise taskOutLE ∧
    rows.Perm ((db.tasks.filter (fun r => listWhere r a u s p)).map projectTask) := by
  intro h
  unfold spTaskList at h
  split at h
  · simp at h
  split at h
  · simp at h
  split at h
  · simp at h
  split at h
  · simp at h
  simp only at h
  cases h
  constructor
  · exact (List.sorted_insertionSort taskRowLE _).map projectTask
      (fun x y hxy => by simpa [taskRowLE, taskOutLE, projectTask] using hxy)
  · exact (List.perm_insertionSort taskRowLE _).map projectTask

/-- C3 witness: the fixture list call is sorted by the engine order and is a
permutation of the filtered projection. -/
theorem c3_list_ordering_witness :
    List.Pairwise taskOutLE [projectTask rowB, projectTask rowA] ∧
    List.Perm [projectTask rowB, projectTask rowA]
      ((cdb.tasks.filter (fun r => listWhere r 1 1 none none)).map projectTask) :=
  c3_list_ordering cdb 1 1 none none [projectTask rowB, projectTask rowA] (by decide)

/-- C4 counterexample: the PUT handler surfaces the rule-engine error
taskDoesntExist with HTTP status 400, not the 404 the kind-based mapping
claims. -/
theorem c4_kind_status_counterexample :
    (spTaskUpdate db0 1 1 1 1 9 (some "t") (some "") 1 none 0).1 =
      Except.error TaskError.taskDoesntExist ∧
    (putHandler db0 1 1 9 1 1 "t" none 1 none 0).1 ≠
      specStatusOfError TaskError.taskDoesntExist := by
  constructor
  · decide
  · decide

/-- C4 (amended): the HTTP status of a surfaced rule-engine error depends only
on the handler, not on the error kind: GET /task/:id and DELETE /task/:id map
every engine error to 404, while POST /task, GET /task and PUT /task/:id map
every engine error to 400. -/
theorem c4_status_per_handler (db : Db) (today now a u tk p st : Nat) (ti : String)
    (d : Option String) (pOpt sF pF dd : Option Nat) :
    (∀ e, (spTaskCreate db today now a u (some ti) (some (d.getD "")) (pOpt.getD 1) dd).1 =
        Except.error e → (postHandler db today now a u ti d pOpt dd).1 = 400) ∧
    (∀ e, (spTaskList db a u sF pF).1 = Except.error e →
       (getListHandler db a u sF pF).1 = 400) ∧
    (∀ e, (spTaskGet db a u tk).1 = Except.error e →
       (getHandler db a u tk).1 = 404) ∧
    (∀ e, (spTaskUpdate db today now a u tk (some ti) (some (d.getD "")) p dd st).1 =
        Except.error e → (putHandler db today now tk a u ti d p dd st).1 = 400) ∧
    (∀ e, (spTaskDelete db now a u tk).1 = Except.error e →
       (deleteHandler db now a u tk).1 = 404) := by
  refine ⟨?_, ?_, ?_, ?_, ?_⟩ <;> intro e h
  · unfold postHandler
    rcases hx : spTaskCreate db today now a u (some ti) (some (d.getD "")) (pOpt.getD 1) dd
      with ⟨r, db2⟩
    rw [hx] at h
    cases r
    · rfl
    · simp at h
  · unfold getListHandler
    rcases hx : spTaskList db a u sF pF with ⟨r, db2⟩
    rw [hx] at h
    cases r
    · rfl
    · simp at h
  · unfold getHandler
    rcases hx : spTaskGet db a u tk with ⟨r, db2⟩
    rw [hx] at h
    cases r
    · rfl
    · simp at h
  · unfold putHandler
    rcases hx : spTaskUpdate db today now a u tk (some ti) (some (d.getD "")) p dd st
      with ⟨r, db2⟩
    rw [hx] at h
    cases r
    · rfl
    · simp at h
  · unfold deleteHandler
    rcases hx : spTaskDelete db now a u tk with ⟨r, db2⟩
    rw [hx] at h
    cases r
    · rfl
    · simp at h

/-- C4 witness: on the empty fixture store, PUT of a missing task surfaces 400
and GET of a missing task surfaces 404. -/
theorem c4_status_per_handler_witness :
    (putHandler db0 1 1 9 1 1 "t" none 1 none 0).1 = 400 ∧
    (getHandler db0 1 1 9).1 = 404 :=
  ⟨(c4_status_per_handler db0 1 1 1 1 9 1 0 "t" none none none none none).2.2.2.1
      TaskError.taskDoesntExist (by decide),
   (c4_status_per_handler db0 1 1 1 1 9 1 0 "t" none none none none none).2.2.1
      TaskError.taskDoesntExist (by decide)⟩

/-- C5: for an otherwise-valid Create, a non-deleted task of the same
(idAccount, idUser, title) makes the call fail with titleAlreadyExists and
leaves the store unchanged, while the call succeeds when every task holding
that triple is soft-deleted — the uniqueness check ignores deleted rows. -/
theorem c5_create_title_uniqueness (db : Db) (today now a u : Nat) (d : Option String)
    (p : Nat) (dd : Option Nat) (ti : String) :
    titleBlank (some ti) = false → sqlLen ti ≤ 100 → descTooLong d = false →
    p ≤ 2 → dueDateBeforeToday today dd = false →
    accountExists db a = true → userBelongs db u a = true →
    ((∃ r ∈ db.tasks, r.idAccount = a ∧ r.idUser = u ∧ r.title = ti ∧ r.deleted = false) →
       spTaskCreate db today now a u (some ti) d p dd =
         (Except.error TaskError.titleAlreadyExists, db)) ∧
    ((∀ r ∈ db.tasks, r.idAccount = a → r.idUser = u → r.title = ti → r.deleted = true) →
       spTaskCreate db today now a u (some ti) d p dd =
         (Except.ok db.nextId,
          { db with
            tasks := db.tasks ++ [mkTaskRow db.nextId a u ti (d.getD "") p dd now],
            nextId := db.nextId + 1 })) := by
  intro h1 h2 h3 h4 h5 h6 h7
  constructor
  · intro hdup
    have hd : titleDupExists db a u ti = true := by
      unfold titleDupExists dupTitle
      simp only [List.any_eq_true, Bool.and_eq_true, beq_iff_eq]
      obtain ⟨r, hr, ha, hu, ht, hdel⟩ := hdup
      exact ⟨r, hr, ⟨⟨⟨ha, hu⟩, ht⟩, hdel⟩⟩
    simp [spTaskCreate, h1, h3, h5, h6, h7, hd, Nat.not_lt.mpr h2, Nat.not_lt.mpr h4]
  · intro hall
    have hd : titleDupExists db a u ti = false := by
      rw [← Bool.not_eq_true]
      unfold titleDupExists dupTitle
      simp only [List.any_eq_true, Bool.and_eq_true, beq_iff_eq]
      rintro ⟨r, hr, ⟨⟨⟨ha, hu⟩, ht⟩, hdel⟩⟩
      rw [hall r hr ha hu ht] at hdel
      cases hdel
    simp [spTaskCreate, insertTask, mkTaskRow, h1, h3, h5, h6, h7, hd,
      Nat.not_lt.mpr h2, Nat.not_lt.mpr h4]

/-- C5 witness: creating a second task titled like the live fixture task fails
with titleAlreadyExists, while creating over only a soft-deleted holder of the
title succeeds. -/
theorem c5_create_title_uniqueness_witness :
    spTaskCreate cdb 5 7 1 1 (some "a") none 1 none =
      (Except.error TaskError.titleAlreadyExists, cdb) ∧
    spTaskCreate ddb 5 7 1 1 (some "a") none 1 none =
      (Except.ok ddb.nextId,
       { ddb with
         tasks := ddb.tasks ++ [mkTaskRow ddb.nextId 1 1 "a" "" 1 none 7],
         nextId := ddb.nextId + 1 }) :=
  ⟨(c5_create_title_uniqueness cdb 5 7 1 1 none 1 none "a" (by decide) (by decide)
      (by decide) (by decide) (by decide) (by decide) (by decide)).1 (by decide),
   (c5_create_title_uniqueness ddb 5 7 1 1 none 1 none "a" (by decide) (by decide)
      (by decide) (by decide) (by decide) (by decide) (by decide)).2 (by decide)⟩

/-- C6: for an otherwise-valid Update of an existing owned task, the
uniqueness check excludes the updated task itself: the update succeeds when no
other non-deleted task of the owner holds the new title (in particular when
the task keeps its own title), and fails with titleAlreadyExists, store
unchanged, when a different non-deleted task of the same owner holds it. -/
theorem c6_update_title_uniqueness (db : Db) (today now a u t : Nat) (d : Option String)
    (p : Nat) (dd : Option Nat) (st : Nat) (ti : String) :
    titleBlank (some ti) = false → sqlLen ti ≤ 100 → descTooLong d = false →
    p ≤ 2 → st ≤ 1 → dueDateBeforeToday today dd = false →
    accountExists db a = true → userBelongs db u a = true →
    taskExistsOwned db t a u = true →
    ((∀ r ∈ db.tasks, r.idTask ≠ t → r.idAccount = a → r.idUser = u → r.deleted = false →
        r.title ≠ ti) →
       (spTaskUpdate db today now a u t (some ti) d p dd st).1 = Except.ok t) ∧
    ((∃ r ∈ db.tasks, r.idAccount = a ∧ r.idUser = u ∧ r.title = ti ∧ r.idTask ≠ t ∧
        r.deleted = false) →
       spTaskUpdate db today now a u t (some ti) d p dd st =
         (Except.error TaskError.titleAlreadyExists, db)) := by
  intro h1 h2 h3 h4 h5 h6 h7 h8 h9
  constructor
  · intro hown
    have hd : db.tasks.any (fun r => dupTitleOther r a u ti t) = false := by
      rw [← Bool.not_eq_true]
      unfold dupTitleOther
      simp only [List.any_eq_true, Bool.and_eq_true, beq_iff_eq, bne_iff_ne]
      rintro ⟨r, hr, ⟨⟨⟨⟨ha, hu⟩, htt⟩, hne⟩, hdel⟩⟩
      exact hown r hr hne ha hu hdel htt
    simp [spTaskUpdate, h1, h3, h6, h7, h8, h9, hd,
      Nat.not_lt.mpr h2, Nat.not_lt.mpr h4, Nat.not_lt.mpr h5]
  · intro hoth
    have hd : db.tasks.any (fun r => dupTitleOther r a u ti t) = true := by
      unfold dupTitleOther
      simp only [List.any_eq_true, Bool.and_eq_true, beq_iff_eq, bne_iff_ne]
      obtain ⟨r, hr, ha, hu, htt, hne, hdel⟩ := hoth
      exact ⟨r, hr, ⟨⟨⟨⟨ha, hu⟩, htt⟩, hne⟩, hdel⟩⟩
    simp [spTaskUpdate, h1, h3, h6, h7, h8, h9, hd,
      Nat.not_lt.mpr h2, Nat.not_lt.mpr h4, Nat.not_lt.mpr h5]

/-- C6 witness: updating fixture task 1 to its own title succeeds, and
updating it to the title of the other live task fails with
titleAlreadyExists. -/
theorem c6_update_title_uniqueness_witness :
    (spTaskUpdate cdb 5 7 1 1 1 (some "a") none 1 none 0).1 = Except.ok 1 ∧
    spTaskUpdate cdb 5 7 1 1 1 (some "b") none 1 none 0 =
      (Except.error TaskError.titleAlreadyExists, cdb) :=
  ⟨(c6_update_title_uniqueness cdb 5 7 1 1 1 none 1 none 0 "a" (by decide) (by decide)
      (by decide) (by decide) (by decide) (by decide) (by decide) (by decide)
      (by decide)).1 (by decide),
   (c6_update_title_uniqueness cdb 5 7 1 1 1 none 1 none 0 "b" (by decide) (by decide)
      (by decide) (by decide) (by decide) (by decide) (by decide) (by decide)
      (by decide)).2 (by decide)⟩

/-- C7: after a successful Delete of (idAccount, idUser, idTask), a second
Delete of the same triple fails with taskDoesntExist and returns the store
unchanged — the soft-delete flag hides the task from the
existence-and-ownership predicate. -/
theorem c7_delete_twice (db : Db) (now now2 a u t i : Nat) (db1 : Db) :
    spTaskDelete db now a u t = (Except.ok i, db1) →
    spTaskDelete db1 now2 a u t = (Except.error TaskError.taskDoesntExist, db1) := by
  intro h
  unfold spTaskDelete at h
  split at h
  · simp at h
  split at h
  · simp at h
  split at h
  · simp at h
  rename_i ha hu hv
  simp only [Bool.not_eq_true, Bool.not_eq_false, Bool.not_eq_false'] at ha hu
  cases h
  have ha2 : accountExists { db with tasks := db.tasks.map (fun r =>
      if taskVisible r t a u then { r with deleted := true, dateModified := now } else r) }
      a = true := ha
  have hu2 : userBelongs { db with tasks := db.tasks.map (fun r =>
      if taskVisible r t a u then { r with deleted := true, dateModified := now } else r) }
      u a = true := hu
  unfold spTaskDelete
  simp [ha2, hu2, taskExistsOwned_after_delete db now a u t]

/-- C7 witness: deleting fixture task 1 succeeds, and a second delete of the
same triple on the resulting store fails with taskDoesntExist leaving the
store unchanged. -/
theorem c7_delete_twice_witness :
    spTaskDelete cdbDel 11 1 1 1 = (Except.error TaskError.taskDoesntExist, cdbDel) :=
  c7_delete_twice cdb 9 11 1 1 1 1 cdbDel (by decide)

/-- C8: for a valid caller (idAccount, idUser), whenever no non-deleted task
matches the exact (idTask, idAccount, idUser) triple — whether the idTask is
absent altogether or the task belongs to a different user of the account —
Get, Delete and (input-valid) Update all fail with the same error
taskDoesntExist and leave the store unchanged, so the response does not
reveal whether the idTask exists under another user. -/
theorem c8_foreign_task_not_found (db : Db) (today now a u t : Nat) (d : Option String)
    (p st : Nat) (dd : Option Nat) (ti : String) :
    accountExists db a = true → userBelongs db u a = true →
    (∀ r ∈ db.tasks, r.idTask = t → r.idAccount = a → r.idUser = u → r.deleted = true) →
    spTaskGet db a u t = (Except.error TaskError.taskDoesntExist, db) ∧
    spTaskDelete db now a u t = (Except.error TaskError.taskDoesntExist, db) ∧
    (titleBlank (some ti) = false → sqlLen ti ≤ 100 → descTooLong d = false →
     p ≤ 2 → st ≤ 1 → dueDateBeforeToday today dd = false →
     spTaskUpdate db today now a u t (some ti) d p dd st =
       (Except.error TaskError.taskDoesntExist, db)) := by
  intro ha hu hinv
  have hvis : taskExistsOwned db t a u = false := by
    rw [← Bool.not_eq_true]
    unfold taskExistsOwned taskVisible
    simp only [List.any_eq_true, Bool.and_eq_true, beq_iff_eq]
    rintro ⟨r, hr, ⟨⟨⟨hq1, hq2⟩, hq3⟩, hq4⟩⟩
    rw [hinv r hr hq1 hq2 hq3] at hq4
    cases hq4
  refine ⟨?_, ?_, ?_⟩
  · simp [spTaskGet, ha, hu, hvis]
  · simp [spTaskDelete, ha, hu, hvis]
  · intro h1 h2 h3 h4 h5 h6
    simp [spTaskUpdate, h1, h3, h6, ha, hu, hvis,
      Nat.not_lt.mpr h2, Nat.not_lt.mpr h4, Nat.not_lt.mpr h5]

/-- C8 witness: user 1 getting or deleting task 7, which exists but belongs to
user 2 of the same account, receives exactly taskDoesntExist. -/
theorem c8_foreign_task_not_found_witness :
    spTaskGet odb 1 1 7 = (Except.error TaskError.taskDoesntExist, odb) ∧
    spTaskDelete odb 9 1 1 7 = (Except.error TaskError.taskDoesntExist, odb) :=
  ⟨(c8_foreign_task_not_found odb 5 9 1 1 7 none 1 0 none "z" (by decide) (by decide)
      (by decide)).1,
   (c8_foreign_task_not_found odb 5 9 1 1 7 none 1 0 none "z" (by decide) (by decide)
      (by decide)).2.1⟩

/-- C9 counterexample: a 101-character title is silently truncated by the
NVARCHAR(100) parameter binding, so the create is accepted instead of
failing with titleExceedsMaxLength. -/
theorem c9_truncation_counterexample :
    s101.length = 101 ∧
    (spTaskCreateBound db0 5 7 1 1 (some s101) none 1 none).1 = Except.ok 1 := by
  constructor
  · decide
  · decide

/-- C9 (amended): a title of at most 100 characters — in particular exactly
100 — passes through the NVARCHAR(100) binding unchanged, and no Create
invoked through the declared parameter ever fails with
titleExceedsMaxLength: binding truncates the argument to its first 100
characters before the body runs, so the LEN check never fires — in
particular a 101-character title is accepted in truncated form rather than
rejected. -/
theorem c9_title_length_boundary (db : Db) (today now a u : Nat) (d : Option String)
    (p : Nat) (dd : Option Nat) (ti : String) :
    (ti.length ≤ 100 → bindNVarchar 100 ti = ti) ∧
    (spTaskCreateBound db today now a u (some ti) d p dd).1 ≠
      Except.error TaskError.titleExceedsMaxLength := by
  constructor
  · intro hle
    unfold bindNVarchar
    obtain ⟨l⟩ := ti
    have htk : l.take 100 = l := List.take_of_length_le hle
    rw [htk]
  · intro h
    have hlen : (bindNVarchar 100 ti).length ≤ 100 := by
      show (ti.data.take 100).length ≤ 100
      simp [List.length_take]
    have hsl : ¬ (100 < sqlLen (bindNVarchar 100 ti)) := by
      have hq := sqlLen_le_length (bindNVarchar 100 ti)
      omega
    unfold spTaskCreateBound at h
    simp only [Option.map_some'] at h
    unfold spTaskCreate insertTask at h
    split at h
    · simp at h
    split at h
    · rename_i hg
      simp only [Option.getD_some, decide_eq_true_eq] at hg
      exact hsl hg
    split at h
    · simp at h
    split at h
    · simp at h
    split at h
    · simp at h
    split at h
    · simp at h
    split at h
    · simp at h
    split at h
    · simp at h
    split at h
    · simp at h
    · rename_i e heq
      simp at h
      subst h
      split at heq
      · simp at heq
      · simp at heq

/-- C9 witness: the 100-character title binds unchanged, and the
101-character title does not produce titleExceedsMaxLength through the
bound create. -/
theorem c9_title_length_boundary_witness :
    bindNVarchar 100 s100 = s100 ∧
    (spTaskCreateBound db0 5 7 1 1 (some s101) none 1 none).1 ≠
      Except.error TaskError.titleExceedsMaxLength :=
  ⟨(c9_title_length_boundary db0 5 7 1 1 none 1 none s100).1 (by decide),
   (c9_title_length_boundary db0 5 7 1 1 none 1 none s101).2⟩

/-- C10: every record returned by Get and every element of a List result has
exactly the columns idTask, title, description, priority, dueDate, status,
dateCreated and dateModified — idAccount, idUser and deleted are never among
the output columns — although the declared TaskEntity result type does list
idAccount and idUser. -/
theorem c10_output_columns (db : Db) (a u t : Nat) (sF pF : Option Nat)
    (rows rows2 : List TaskOut) :
    ((spTaskGet db a u t).1 = Except.ok rows →
       ∀ row ∈ rows.map taskOutCols,
         row.map Prod.fst = taskOutFields ∧
         "idAccount" ∉ row.map Prod.fst ∧
         "idUser" ∉ row.map Prod.fst ∧
         "deleted" ∉ row.map Prod.fst) ∧
    ((spTaskList db a u sF pF).1 = Except.ok rows2 →
       ∀ row ∈ rows2.map taskOutCols,
         row.map Prod.fst = taskOutFields ∧
         "idAccount" ∉ row.map Prod.fst ∧
         "idUser" ∉ row.map Prod.fst ∧
         "deleted" ∉ row.map Prod.fst) ∧
    ("idAccount" ∈ taskEntityFields ∧ "idUser" ∈ taskEntityFields) := by
  refine ⟨?_, ?_, by decide⟩ <;>
  · intro _ row hrow
    obtain ⟨o, _, rfl⟩ := List.mem_map.1 hrow
    have hkeys : (taskOutCols o).map Prod.fst = taskOutFields := rfl
    rw [hkeys]
    refine ⟨rfl, by decide, by decide, by decide⟩

/-- C10 witness: the record returned for fixture task 1 carries exactly the
eight output columns and none of idAccount, idUser, deleted. -/
theorem c10_output_columns_witness :
    (taskOutCols (projectTask rowA)).map Prod.fst = taskOutFields ∧
    "idAccount" ∉ (taskOutCols (projectTask rowA)).map Prod.fst := by
  have h := (c10_output_columns cdb 1 1 1 none none [projectTask rowA] []).1 (by decide)
    (taskOutCols (projectTask rowA)) (by decide)
  exact ⟨h.1, h.2.1⟩

end TaskSpec
